import Mathlib

/-
Shallow embedding of `src/store.ts` (class `DiscordStore`) of
matrix-appservice-discord, and proofs about its backup service, schema
migration runner, schema version tracker, and generic record gateway.

Conventions of the embedding:
* Async methods returning `Promise<T>` that can reject become `Except String T`
  (the error is the rejection message); methods that catch internally return
  plain values.
* The database connector (`this.db`) is a collaborator: each store method is
  modelled as a function of the connector replies it awaits.
* The filesystem used by `backupDatabase` is modelled as an association list
  from path to file contents.
-/

namespace MatrixAppserviceDiscord

/-! ### Filesystem model (for `backupDatabase`) -/

/-- A filesystem: association list mapping a path to the file's contents.
The first binding for a path is the current contents. -/
abbrev FSState := List (String × String)

/-- `fs.access(path, cb)` callback receives `err === null` iff the file exists. -/
def fsExists (fs : FSState) (path : String) : Bool :=
  fs.any (fun e => e.1 = path)

/-- What a read stream of `path` would deliver: the contents, or none if the
file is missing (in which case the read stream errors). -/
def fsRead (fs : FSState) (path : String) : Option String :=
  (fs.find? (fun e => e.1 = path)).map (fun e => e.2)

/-- Writing `contents` to `path` (what `createWriteStream` + `pipe` ends with):
replaces any previous binding of `path`. -/
def fsWrite (fs : FSState) (path contents : String) : FSState :=
  (path, contents) :: fs.filter (fun e => e.1 ≠ path)

/-- How the promise returned by `backupDatabase` settles. -/
inductive BackupOutcome where
  /-- `config.filename == null`: warn "Backups not supported", return. -/
  | unsupportedConnector
  /-- `config.filename === ":memory:"`: log, return. -/
  | memoryDb
  /-- The backup file did NOT exist (`!result`): the code logs
  "NOT backing up database while a file already exists" and resolves early,
  but — lacking a `return` — still runs the stream copy. -/
  | warnedThenCopied
  /-- The backup file DID exist (`result` is true): the `if (!result)` guard is
  skipped and the stream copy runs, overwriting the existing backup;
  the promise resolves on the write stream's close. -/
  | copiedOverExisting
  /-- The read stream errored (source file missing) and the promise was not
  yet settled: the rejection surfaces. -/
  | readError
  /-- The read stream errored but the promise had already resolved early
  (backup absent): the rejection is swallowed, no copy happens. -/
  | resolvedEarlyNoCopy
deriving DecidableEq

/-- Embedding of `DiscordStore.backupDatabase` (src/store.ts lines 58-88).

`filename` is `this.config.filename` (`none` models `null`). Returns the
filesystem after all stream activity finishes, and how the promise settled.

Faithful to the source, including its two slips:
`result` is `err === null`, i.e. true when `<filename>.backup` EXISTS; and the
`if (!result)` branch calls `resolve(true)` without returning, so the
stream copy below it runs in every case. -/
def DiscordStore.backupDatabase (filename : Option String) (fs : FSState) :
    FSState × BackupOutcome :=
  match filename with
  | none => (fs, .unsupportedConnector)
  | some file =>
    if file = ":memory:" then (fs, .memoryDb)
    else
      -- const BACKUP_NAME = this.config.filename + ".backup";
      let BACKUP_NAME := file ++ ".backup"
      -- fs.access(BACKUP_NAME, (err) => resolve(err === null))
      let result := fsExists fs BACKUP_NAME
      -- if (!result) { log.warn(...); resolve(true); }  -- falls through!
      -- const rd = fs.createReadStream(this.config.filename); ... rd.pipe(wr);
      match fsRead fs file with
      | none =>
          if !result then (fs, .resolvedEarlyNoCopy) else (fs, .readError)
      | some contents =>
          (fsWrite fs BACKUP_NAME contents,
           if !result then .warnedThenCopied else .copiedOverExisting)

/-! ### Schema version tracker -/

/-- The single row of the `schema` control table. -/
structure SchemaRow where
  version : Nat
deriving DecidableEq

/-- Embedding of `DiscordStore.getSchemaVersion` (src/store.ts lines 270-280).

`dbGet` is the awaited result of `this.db.Get("SELECT version FROM schema")`:
an error if the query failed, `ok none` if no row matched (JS `undefined`),
`ok (some row)` otherwise. The source initialises `version = 0`, then inside a
`try` does `version = versionReply!.version`; on `undefined` that property
access throws, so both the no-row case and the query-error case land in the
`catch`, which only warns, leaving `version = 0`. -/
def DiscordStore.getSchemaVersion (dbGet : Except String (Option SchemaRow)) : Nat :=
  match dbGet with
  | .error _ => 0
  | .ok none => 0
  | .ok (some row) => row.version

/-! ### Token lookup -/

/-- A row of the `discord_id_token` table. -/
structure TokenRow where
  token : String
deriving DecidableEq

/-- Embedding of `DiscordStore.getToken` (src/store.ts lines 223-240).

`dbGet` is the awaited result of `this.db.Get("SELECT token FROM
discord_id_token WHERE discord_id = $discordId")`. The source returns
`row ? row.token as string : ""` and rethrows any caught error. -/
def DiscordStore.getToken (dbGet : Except String (Option TokenRow)) :
    Except String String :=
  match dbGet with
  | .error err => .error err
  | .ok none => .ok ""
  | .ok (some row) => .ok row.token

/-! ### Migration runner (`DiscordStore.init`) -/

/-- `export const CURRENT_SCHEMA = 10;` (src/store.ts line 32). -/
def CURRENT_SCHEMA : Nat := 10

/-- `const SCHEMA_ROOM_STORE_REQUIRED = 8;` (src/store.ts line 96). -/
def SCHEMA_ROOM_STORE_REQUIRED : Nat := 8

/-- `const SCHEMA_USER_STORE_REQUIRED = 9;` (src/store.ts line 97). -/
def SCHEMA_USER_STORE_REQUIRED : Nat := 9

/-- `const targetSchema = overrideSchema || CURRENT_SCHEMA;` — JS `||` with the
default `overrideSchema = 0`, and `0` is falsy. -/
def targetSchema (overrideSchema : Nat) : Nat :=
  if overrideSchema = 0 then CURRENT_SCHEMA else overrideSchema

/-- The collaborator argument a schema class constructor receives
(`new schemaClass(roomStore)`, `new schemaClass(userStore)`, or
`new schemaClass()`), for caller-supplied collaborators of types `R` and `U`. -/
inductive CollabArg (R U : Type) where
  | room (r : R)
  | user (u : U)
  | noArg
deriving DecidableEq

/-- Observable events of one `init` run, in program order. -/
inductive InitEvent (R U : Type) where
  /-- `new schemaClass(...)` for version `version` with the given argument. -/
  | construct (version : Nat) (arg : CollabArg R U)
  /-- `await schema.run(this)` for `version`; `ok` is whether it succeeded. -/
  | runStep (version : Nat) (ok : Bool)
  /-- `await schema.rollBack(this)` for `version`; `ok` is whether it succeeded. -/
  | rollBack (version : Nat) (ok : Bool)
  /-- `await this.setSchemaVersion(version)`. -/
  | setVersion (version : Nat)
deriving DecidableEq

/-- How `init` terminates. -/
inductive InitOutcome where
  /-- Fell out of the while loop: "Updated database to the latest schema". -/
  | success
  /-- `throw Error("Failure to update to latest schema.")` — forward step
  failed, rollback succeeded. -/
  | errRolledBack
  /-- `throw Error("Failure to update to latest schema. And failed to
  rollback.")` — forward step failed, then rollback failed too. -/
  | errFatal
deriving DecidableEq

/-- The `while (version < targetSchema)` loop of `init` (src/store.ts lines
103-131), one recursive call per iteration.

`runOk v` / `rollBackOk v` say whether version `v`'s schema step's `run` /
`rollBack` action succeeds (the steps themselves are external collaborators
loaded by `require`). `fuel` bounds the number of iterations structurally;
`init` below supplies `target - version`, which is exact, so the fuel never
runs out before the loop guard fails. Returns the event trace and outcome. -/
def initLoop {R U : Type} (runOk rollBackOk : Nat → Bool)
    (roomStore : R) (userStore : U) :
    (fuel version target : Nat) → List (InitEvent R U) × InitOutcome
  | 0, _, _ => ([], .success)
  | fuel + 1, version, target =>
    if version < target then
      -- version++;
      let v := version + 1
      -- const schemaClass = require(`./db/schema/v${version}.js`).Schema;
      let arg : CollabArg R U :=
        if v = SCHEMA_ROOM_STORE_REQUIRED then .room roomStore
        else if v = SCHEMA_USER_STORE_REQUIRED then .user userStore
        else .noArg
      if runOk v then
        -- await schema.run(this); ... await this.setSchemaVersion(version);
        let rest := initLoop runOk rollBackOk roomStore userStore fuel v target
        (.construct v arg :: .runStep v true :: .setVersion v :: rest.1, rest.2)
      else if rollBackOk v then
        -- catch: await schema.rollBack(this); throw Error("Failure to update
        -- to latest schema.");
        ([.construct v arg, .runStep v false, .rollBack v true], .errRolledBack)
      else
        -- rollback threw: throw Error("Failure to update to latest schema.
        -- And failed to rollback.");
        ([.construct v arg, .runStep v false, .rollBack v false], .errFatal)
    else ([], .success)

/-- Embedding of `DiscordStore.init` (src/store.ts lines 93-133).

`v0` is the value `getSchemaVersion` returned for this run; `overrideSchema`,
`roomStore` and `userStore` are the method's parameters. -/
def DiscordStore.init {R U : Type} (runOk rollBackOk : Nat → Bool)
    (overrideSchema : Nat) (roomStore : R) (userStore : U) (v0 : Nat) :
    List (InitEvent R U) × InitOutcome :=
  initLoop runOk rollBackOk roomStore userStore
    (targetSchema overrideSchema - v0) v0 (targetSchema overrideSchema)

/-- The versions passed to `setSchemaVersion`, in call order. -/
def setCalls {R U : Type} (evs : List (InitEvent R U)) : List Nat :=
  evs.filterMap fun e =>
    match e with
    | .setVersion v => some v
    | _ => none

/-- The versions whose forward action `schema.run` was invoked, in call order. -/
def runCalls {R U : Type} (evs : List (InitEvent R U)) : List Nat :=
  evs.filterMap fun e =>
    match e with
    | .runStep v _ => some v
    | _ => none

/-- The persisted schema version after a run with trace `evs`, starting from
persisted version `v0`: the last `setSchemaVersion` call, or `v0` if none. -/
def finalPersisted {R U : Type} (v0 : Nat) (evs : List (InitEvent R U)) : Nat :=
  (setCalls evs).getLast?.getD v0

/-! ### Generic record gateway -/

/-- A record entity instance after `RunQuery` (the `IDbData` contract): its
`Result` state holds the matched row's data, or `none` when the query
succeeded but matched no row. -/
structure DbDataInstance where
  Result : Option Nat
deriving DecidableEq

/-- Embedding of `DiscordStore.Get` (src/store.ts lines 242-253).

`runQuery` is the awaited result of `dType.RunQuery(this, params)`; on success
its value is the populated-or-empty instance `dType`. The source returns
`dType` on success and, in the `catch`, warns and returns `null`. -/
def DiscordStore.Get {T : Type} (runQuery : Except String T) : Option T :=
  match runQuery with
  | .ok dType => some dType
  | .error _ => none

/-- Embedding of `DiscordStore.Insert` (src/store.ts lines 255-258):
`await data.Insert(this)` with no try/catch, so the action's result —
success or rejection — is the method's result, unchanged. -/
def DiscordStore.Insert (insertAction : Except String Unit) : Except String Unit :=
  insertAction

/-- Embedding of `DiscordStore.Update` (src/store.ts lines 260-263):
`await data.Update(this)` with no try/catch. -/
def DiscordStore.Update (updateAction : Except String Unit) : Except String Unit :=
  updateAction

/-- Embedding of `DiscordStore.Delete` (src/store.ts lines 265-268):
`await data.Delete(this)` with no try/catch. -/
def DiscordStore.Delete (deleteAction : Except String Unit) : Except String Unit :=
  deleteAction

/-! ### Helper lemmas -/

@[simp] lemma setCalls_nil {R U : Type} : setCalls (R := R) (U := U) [] = [] := rfl

@[simp] lemma setCalls_cons_construct {R U : Type} (v : Nat) (a : CollabArg R U)
    (evs : List (InitEvent R U)) :
    setCalls (.construct v a :: evs) = setCalls evs := rfl

@[simp] lemma setCalls_cons_runStep {R U : Type} (v : Nat) (b : Bool)
    (evs : List (InitEvent R U)) :
    setCalls (.runStep v b :: evs) = setCalls evs := rfl

@[simp] lemma setCalls_cons_rollBack {R U : Type} (v : Nat) (b : Bool)
    (evs : List (InitEvent R U)) :
    setCalls (.rollBack v b :: evs) = setCalls evs := rfl

@[simp] lemma setCalls_cons_setVersion {R U : Type} (v : Nat)
    (evs : List (InitEvent R U)) :
    setCalls (.setVersion v :: evs) = v :: setCalls evs := rfl

@[simp] lemma runCalls_nil {R U : Type} : runCalls (R := R) (U := U) [] = [] := rfl

@[simp] lemma runCalls_cons_construct {R U : Type} (v : Nat) (a : CollabArg R U)
    (evs : List (InitEvent R U)) :
    runCalls (.construct v a :: evs) = runCalls evs := rfl

@[simp] lemma runCalls_cons_runStep {R U : Type} (v : Nat) (b : Bool)
    (evs : List (InitEvent R U)) :
    runCalls (.runStep v b :: evs) = v :: runCalls evs := rfl

@[simp] lemma runCalls_cons_rollBack {R U : Type} (v : Nat) (b : Bool)
    (evs : List (InitEvent R U)) :
    runCalls (.rollBack v b :: evs) = runCalls evs := rfl

@[simp] lemma runCalls_cons_setVersion {R U : Type} (v : Nat)
    (evs : List (InitEvent R U)) :
    runCalls (.setVersion v :: evs) = runCalls evs := rfl

lemma setVersion_mem_iff {R U : Type} (evs : List (InitEvent R U)) (w : Nat) :
    w ∈ setCalls evs ↔ InitEvent.setVersion w ∈ evs := by
  induction evs with
  | nil => simp
  | cons e evs ih =>
    cases e <;> simp [ih]

lemma getLast_getD_range' (s n d : Nat) :
    ((List.range' s n).getLast?).getD d = if n = 0 then d else s + n - 1 := by
  match n with
  | 0 => rfl
  | m + 1 =>
    rw [List.range'_concat, List.getLast?_concat]
    simp

lemma initLoop_all_ok {R U : Type} (runOk rollBackOk : Nat → Bool) (r : R) (u : U) :
    ∀ fuel version target, target - version ≤ fuel →
    (∀ v, version < v → v ≤ target → runOk v = true) →
    setCalls (initLoop runOk rollBackOk r u fuel version target).1
        = List.range' (version + 1) (target - version) ∧
    (initLoop runOk rollBackOk r u fuel version target).2 = InitOutcome.success := by
  intro fuel
  induction fuel with
  | zero =>
    intro version target hf _
    have h0 : target - version = 0 := Nat.le_zero.mp hf
    simp [initLoop, h0]
  | succ fuel ih =>
    intro version target hf hok
    by_cases hvt : version < target
    · have hrun : runOk (version + 1) = true :=
        hok _ (Nat.lt_succ_self version) hvt
      have hrec := ih (version + 1) target (by omega)
        (fun v hv1 hv2 => hok v (by omega) hv2)
      obtain ⟨m, hm⟩ : ∃ m, target - version = m + 1 := ⟨target - version - 1, by omega⟩
      simp only [initLoop, if_pos hvt, hrun, if_true]
      refine ⟨?_, hrec.2⟩
      simp only [setCalls_cons_construct, setCalls_cons_runStep, setCalls_cons_setVersion]
      rw [hrec.1, hm, List.range'_succ]
      have : target - (version + 1) = m := by omega
      rw [this]
    · have h0 : target - version = 0 := by omega
      simp [initLoop, if_neg hvt, h0]

lemma initLoop_fail_at {R U : Type} (runOk rollBackOk : Nat → Bool) (r : R) (u : U) :
    ∀ fuel version target k, target - version ≤ fuel →
    version < k → k ≤ target →
    (∀ v, version < v → v < k → runOk v = true) → runOk k = false →
    setCalls (initLoop runOk rollBackOk r u fuel version target).1
        = List.range' (version + 1) (k - 1 - version) ∧
    runCalls (initLoop runOk rollBackOk r u fuel version target).1
        = List.range' (version + 1) (k - version) ∧
    (initLoop runOk rollBackOk r u fuel version target).2
        = (if rollBackOk k then InitOutcome.errRolledBack else InitOutcome.errFatal) := by
  intro fuel
  induction fuel with
  | zero =>
    intro version target k hf hvk hkt _ _
    omega
  | succ fuel ih =>
    intro version target k hf hvk hkt hok hfail
    have hvt : version < target := by omega
    by_cases hk : version + 1 = k
    · subst hk
      simp only [initLoop, if_pos hvt, hfail, Bool.false_eq_true, if_false]
      have h1 : version + 1 - 1 - version = 0 := by omega
      have h2 : version + 1 - version = 1 := by omega
      cases hrb : rollBackOk (version + 1) <;>
        simp [h1, h2]
    · have hrun : runOk (version + 1) = true := hok _ (Nat.lt_succ_self version) (by omega)
      have hrec := ih (version + 1) target k (by omega) (by omega) hkt
        (fun v hv1 hv2 => hok v (by omega) hv2) hfail
      simp only [initLoop, if_pos hvt, hrun, if_true]
      refine ⟨?_, ?_, hrec.2.2⟩
      · simp only [setCalls_cons_construct, setCalls_cons_runStep, setCalls_cons_setVersion]
        rw [hrec.1]
        obtain ⟨m, hm⟩ : ∃ m, k - 1 - version = m + 1 := ⟨k - 1 - version - 1, by omega⟩
        rw [hm, List.range'_succ]
        have : k - 1 - (version + 1) = m := by omega
        rw [this]
      · simp only [runCalls_cons_construct, runCalls_cons_runStep, runCalls_cons_setVersion]
        rw [hrec.2.1]
        obtain ⟨m, hm⟩ : ∃ m, k - version = m + 1 := ⟨k - version - 1, by omega⟩
        rw [hm, List.range'_succ]
        have : k - (version + 1) = m := by omega
        rw [this]

lemma initLoop_setVersion_after_runStep {R U : Type}
    (runOk rollBackOk : Nat → Bool) (r : R) (u : U) :
    ∀ fuel version target n w,
    InitEvent.setVersion w ∈ ((initLoop runOk rollBackOk r u fuel version target).1.take n) →
    InitEvent.runStep w true ∈ ((initLoop runOk rollBackOk r u fuel version target).1.take n) := by
  intro fuel
  induction fuel with
  | zero =>
    intro version target n w h
    simp [initLoop] at h
  | succ fuel ih =>
    intro version target n w h
    by_cases hvt : version < target
    · by_cases hrun : runOk (version + 1) = true
      · simp only [initLoop, if_pos hvt, hrun, if_true] at h ⊢
        match n with
        | 0 => simp at h
        | 1 => simp [List.take_succ_cons] at h
        | 2 => simp [List.take_succ_cons] at h
        | (m + 3) =>
          rw [List.take_succ_cons, List.take_succ_cons, List.take_succ_cons] at h ⊢
          rcases List.mem_cons.mp h with h1 | h'
          · exact absurd h1 (by simp)
          rcases List.mem_cons.mp h' with h2 | h''
          · exact absurd h2 (by simp)
          rcases List.mem_cons.mp h'' with h3 | h4
          · have hw : w = version + 1 := by injection h3
            subst hw
            exact List.mem_cons_of_mem _ (List.mem_cons_self _ _)
          · have hrest := ih (version + 1) target m w h4
            exact List.mem_cons_of_mem _ (List.mem_cons_of_mem _ (List.mem_cons_of_mem _ hrest))
      · have hmem := List.mem_of_mem_take h
        rw [initLoop] at hmem
        rw [if_pos hvt] at hmem
        simp only [hrun, if_false] at hmem
        by_cases hrb : rollBackOk (version + 1) = true <;> simp [hrb] at hmem
    · simp [initLoop, if_neg hvt] at h

lemma initLoop_construct_arg {R U : Type}
    (runOk rollBackOk : Nat → Bool) (r : R) (u : U) :
    ∀ fuel version target w a,
    InitEvent.construct w a ∈ (initLoop runOk rollBackOk r u fuel version target).1 →
    a = (if w = SCHEMA_ROOM_STORE_REQUIRED then CollabArg.room r
         else if w = SCHEMA_USER_STORE_REQUIRED then CollabArg.user u
         else CollabArg.noArg) := by
  intro fuel
  induction fuel with
  | zero =>
    intro version target w a h
    simp [initLoop] at h
  | succ fuel ih =>
    intro version target w a h
    by_cases hvt : version < target
    · by_cases hrun : runOk (version + 1) = true
      · simp only [initLoop, if_pos hvt, hrun, if_true] at h
        rcases List.mem_cons.mp h with h1 | h'
        · have hw : w = version + 1 ∧ a = (if version + 1 = SCHEMA_ROOM_STORE_REQUIRED
              then CollabArg.room r
              else if version + 1 = SCHEMA_USER_STORE_REQUIRED then CollabArg.user u
              else CollabArg.noArg) := by
            constructor <;> injection h1
          rw [hw.1, hw.2]
        rcases List.mem_cons.mp h' with h2 | h''
        · exact absurd h2 (by simp)
        rcases List.mem_cons.mp h'' with h3 | h4
        · exact absurd h3 (by simp)
        · exact ih (version + 1) target w a h4
      · simp only [initLoop, if_pos hvt, hrun, if_false] at h
        by_cases hrb : rollBackOk (version + 1) = true <;> simp [hrb] at h <;>
          rcases h with ⟨hw, ha⟩ <;> subst hw <;> exact ha
    · simp [initLoop, if_neg hvt] at h

/-! ### Claim theorems -/

/-- Claim C1 (code bug): the claim says that when `<path>.backup` already
exists, `backupDatabase` skips the copy, so a second `Backup()` run leaves the
first backup's contents unchanged. The code does the opposite: `result` is
true when the backup exists, the `if (!result)` guard fires when it is absent,
and that branch lacks a `return`, so the stream copy runs in every case. This
theorem evaluates the embedding at the failing input: a first run with the
database at "A" creates the backup "A"; the database is then modified to "B"
(nothing is deleted); the second run does not skip (`copiedOverExisting`) and
overwrites the first backup's contents with "B". -/
theorem backupDatabase_overwrites_existing_backup :
    fsRead (DiscordStore.backupDatabase (some "db") [("db", "A")]).1 "db.backup"
        = some "A" ∧
    (DiscordStore.backupDatabase (some "db")
        (fsWrite (DiscordStore.backupDatabase (some "db") [("db", "A")]).1 "db" "B")).2
        = BackupOutcome.copiedOverExisting ∧
    fsRead (DiscordStore.backupDatabase (some "db")
        (fsWrite (DiscordStore.backupDatabase (some "db") [("db", "A")]).1 "db" "B")).1
        "db.backup" = some "B" :=
  ⟨rfl, rfl, rfl⟩

/-- Claim C2: for every starting persisted version `v0` strictly below the
target, a run of `init` in which every migration step's forward action
succeeds ends with persisted schema version equal to the target, and the
versions `v0+1` through `target` are each persisted via `setSchemaVersion`
exactly once, in strictly increasing order with no version skipped: the list
of `setSchemaVersion` calls is exactly `[v0+1, ..., target]`
(`List.range' (v0+1) (target - v0)`). -/
theorem init_all_ok_sets_each_version_once {R U : Type}
    (runOk rollBackOk : Nat → Bool) (o : Nat) (r : R) (u : U) (v0 : Nat)
    (hlt : v0 < targetSchema o)
    (hok : ∀ v, v0 < v → v ≤ targetSchema o → runOk v = true) :
    setCalls (DiscordStore.init runOk rollBackOk o r u v0).1
        = List.range' (v0 + 1) (targetSchema o - v0) ∧
    (DiscordStore.init runOk rollBackOk o r u v0).2 = InitOutcome.success ∧
    finalPersisted v0 (DiscordStore.init runOk rollBackOk o r u v0).1
        = targetSchema o := by
  have h := initLoop_all_ok runOk rollBackOk r u (targetSchema o - v0) v0 (targetSchema o)
    le_rfl hok
  refine ⟨h.1, h.2, ?_⟩
  simp only [DiscordStore.init, finalPersisted] at h ⊢
  rw [h.1, getLast_getD_range']
  split <;> omega

/-- Witness for C2: a store at version 5 migrating to the default target 10
with all steps succeeding persists exactly [6, 7, 8, 9, 10] and ends at 10. -/
theorem init_all_ok_sets_each_version_once_witness :
    setCalls (DiscordStore.init (R := Nat) (U := Nat)
        (fun _ => true) (fun _ => true) 0 0 0 5).1
        = List.range' (5 + 1) (targetSchema 0 - 5) ∧
    (DiscordStore.init (R := Nat) (U := Nat) (fun _ => true) (fun _ => true) 0 0 0 5).2
        = InitOutcome.success ∧
    finalPersisted 5 (DiscordStore.init (R := Nat) (U := Nat)
        (fun _ => true) (fun _ => true) 0 0 0 5).1 = targetSchema 0 :=
  init_all_ok_sets_each_version_once (fun _ => true) (fun _ => true) 0 0 0 5
    (by decide) (fun _ _ _ => rfl)

/-- Claim C3: if step `k`'s forward action fails and its rollback succeeds,
`init` aborts with the non-fatal migration error, no step with a number
greater than `k` runs (the forward actions invoked are exactly
`[v0+1, ..., k]`), `setSchemaVersion` is not called for `k`, and the persisted
schema version remains `k - 1`. -/
theorem init_forward_fail_rollback_ok {R U : Type}
    (runOk rollBackOk : Nat → Bool) (o : Nat) (r : R) (u : U) (v0 k : Nat)
    (hv0 : v0 < k) (hk : k ≤ targetSchema o)
    (hok : ∀ v, v0 < v → v < k → runOk v = true)
    (hfail : runOk k = false) (hrb : rollBackOk k = true) :
    (DiscordStore.init runOk rollBackOk o r u v0).2 = InitOutcome.errRolledBack ∧
    runCalls (DiscordStore.init runOk rollBackOk o r u v0).1
        = List.range' (v0 + 1) (k - v0) ∧
    setCalls (DiscordStore.init runOk rollBackOk o r u v0).1
        = List.range' (v0 + 1) (k - 1 - v0) ∧
    InitEvent.setVersion k ∉ (DiscordStore.init runOk rollBackOk o r u v0).1 ∧
    finalPersisted v0 (DiscordStore.init runOk rollBackOk o r u v0).1 = k - 1 := by
  have h := initLoop_fail_at runOk rollBackOk r u (targetSchema o - v0) v0 (targetSchema o) k
    le_rfl hv0 hk hok hfail
  simp only [DiscordStore.init] at h ⊢
  refine ⟨?_, h.2.1, h.1, ?_, ?_⟩
  · rw [h.2.2, hrb]
    simp
  · intro hmem
    have hks : k ∈ setCalls (initLoop runOk rollBackOk r u
        (targetSchema o - v0) v0 (targetSchema o)).1 :=
      (setVersion_mem_iff _ k).mpr hmem
    rw [h.1, List.mem_range'_1] at hks
    omega
  · simp only [finalPersisted]
    rw [h.1, getLast_getD_range']
    split <;> omega

/-- Witness for C3: a store at version 5, target 10, with step 9's forward
action failing and its rollback succeeding: the run is rolled back, steps
6-9 ran, versions 6-8 were persisted, 9 was not, and the store rests at 8. -/
theorem init_forward_fail_rollback_ok_witness :
    (DiscordStore.init (R := Nat) (U := Nat)
        (fun v => decide (v < 9)) (fun _ => true) 0 0 0 5).2 = InitOutcome.errRolledBack ∧
    runCalls (DiscordStore.init (R := Nat) (U := Nat)
        (fun v => decide (v < 9)) (fun _ => true) 0 0 0 5).1
        = List.range' (5 + 1) (9 - 5) ∧
    setCalls (DiscordStore.init (R := Nat) (U := Nat)
        (fun v => decide (v < 9)) (fun _ => true) 0 0 0 5).1
        = List.range' (5 + 1) (9 - 1 - 5) ∧
    InitEvent.setVersion 9 ∉ (DiscordStore.init (R := Nat) (U := Nat)
        (fun v => decide (v < 9)) (fun _ => true) 0 0 0 5).1 ∧
    finalPersisted 5 (DiscordStore.init (R := Nat) (U := Nat)
        (fun v => decide (v < 9)) (fun _ => true) 0 0 0 5).1 = 9 - 1 :=
  init_forward_fail_rollback_ok (fun v => decide (v < 9)) (fun _ => true) 0 0 0 5 9
    (by decide) (by decide) (fun v _ h2 => decide_eq_true h2) (by decide) rfl

/-- Claim C4: if step `k`'s forward action fails and then its rollback also
fails, `init` aborts with the fatal error — a value distinct from the
non-fatal rolled-back error — and the persisted schema version is `k - 1`,
in particular not advanced past `k - 1`. -/
theorem init_forward_fail_rollback_fail {R U : Type}
    (runOk rollBackOk : Nat → Bool) (o : Nat) (r : R) (u : U) (v0 k : Nat)
    (hv0 : v0 < k) (hk : k ≤ targetSchema o)
    (hok : ∀ v, v0 < v → v < k → runOk v = true)
    (hfail : runOk k = false) (hrb : rollBackOk k = false) :
    (DiscordStore.init runOk rollBackOk o r u v0).2 = InitOutcome.errFatal ∧
    InitOutcome.errFatal ≠ InitOutcome.errRolledBack ∧
    setCalls (DiscordStore.init runOk rollBackOk o r u v0).1
        = List.range' (v0 + 1) (k - 1 - v0) ∧
    finalPersisted v0 (DiscordStore.init runOk rollBackOk o r u v0).1 = k - 1 := by
  have h := initLoop_fail_at runOk rollBackOk r u (targetSchema o - v0) v0 (targetSchema o) k
    le_rfl hv0 hk hok hfail
  simp only [DiscordStore.init] at h ⊢
  refine ⟨?_, by simp, h.1, ?_⟩
  · rw [h.2.2, hrb]
    simp
  · simp only [finalPersisted]
    rw [h.1, getLast_getD_range']
    split <;> omega

/-- Witness for C4: a store at version 5, target 10, with step 9's forward
action and rollback both failing: the run ends fatal and the store rests
at 8. -/
theorem init_forward_fail_rollback_fail_witness :
    (DiscordStore.init (R := Nat) (U := Nat)
        (fun v => decide (v < 9)) (fun _ => false) 0 0 0 5).2 = InitOutcome.errFatal ∧
    InitOutcome.errFatal ≠ InitOutcome.errRolledBack ∧
    setCalls (DiscordStore.init (R := Nat) (U := Nat)
        (fun v => decide (v < 9)) (fun _ => false) 0 0 0 5).1
        = List.range' (5 + 1) (9 - 1 - 5) ∧
    finalPersisted 5 (DiscordStore.init (R := Nat) (U := Nat)
        (fun v => decide (v < 9)) (fun _ => false) 0 0 0 5).1 = 9 - 1 :=
  init_forward_fail_rollback_fail (fun v => decide (v < 9)) (fun _ => false) 0 0 0 5 9
    (by decide) (by decide) (fun v _ h2 => decide_eq_true h2) (by decide) rfl

/-- Claim C5: at every point during a migration run — i.e., in every prefix
`take n` of the run's event trace — a `setSchemaVersion w` call is preceded by
a successful forward action of step `w`: `init` never persists a version whose
step has not yet succeeded. -/
theorem init_setVersion_only_after_run {R U : Type}
    (runOk rollBackOk : Nat → Bool) (o : Nat) (r : R) (u : U) (v0 n w : Nat)
    (h : InitEvent.setVersion w
        ∈ ((DiscordStore.init runOk rollBackOk o r u v0).1.take n)) :
    InitEvent.runStep w true
        ∈ ((DiscordStore.init runOk rollBackOk o r u v0).1.take n) :=
  initLoop_setVersion_after_runStep runOk rollBackOk r u
    (targetSchema o - v0) v0 (targetSchema o) n w h

/-- Witness for C5: in the run from version 0 to target 1, the prefix of
length 3 contains `setVersion 1`, and indeed contains `runStep 1 true`. -/
theorem init_setVersion_only_after_run_witness :
    InitEvent.runStep 1 true
        ∈ ((DiscordStore.init (R := Nat) (U := Nat)
            (fun _ => true) (fun _ => true) 1 0 0 0).1.take 3) :=
  init_setVersion_only_after_run (fun _ => true) (fun _ => true) 1 0 0 0 3 1 (by decide)

/-- Claim C6: `getSchemaVersion` returns 0 — rather than raising — when the
control-table query fails or returns no row, and otherwise returns the stored
integer version. -/
theorem getSchemaVersion_defaults_to_zero :
    (∀ e : String, DiscordStore.getSchemaVersion (Except.error e) = 0) ∧
    DiscordStore.getSchemaVersion (Except.ok none) = 0 ∧
    (∀ v : Nat, DiscordStore.getSchemaVersion (Except.ok (some ⟨v⟩)) = v) :=
  ⟨fun _ => rfl, rfl, fun _ => rfl⟩

/-- Counterexample to Claim C7's last clause: `Get` returns `none` on a query
error but `some` of the (empty) instance on a successful query that matched
no row, so the two results are distinguishable — the claim that callers
cannot distinguish a query error from a missing match through `Get`'s result
alone is false at this concrete input. -/
theorem Get_error_result_differs_from_no_match :
    DiscordStore.Get (T := DbDataInstance) (Except.error "query failed")
      ≠ DiscordStore.Get (Except.ok ({ Result := none } : DbDataInstance)) := by
  decide

/-- Claim C7 (amended): `Get` returns the constructed entity instance whenever
`RunQuery` completes without error — including when it matched no row, i.e.
the instance's `Result` state is empty — and returns `null` (never propagating
the error) when `RunQuery` raises; the `null` returned on error is a value
distinct from the entity instance returned on a missing match, so `Get`'s
result does distinguish the two cases (though neither carries row data). -/
theorem Get_returns_instance_or_null :
    (∀ (T : Type) (dType : T), DiscordStore.Get (Except.ok dType) = some dType) ∧
    (∀ e : String, DiscordStore.Get (T := DbDataInstance) (Except.error e) = none) ∧
    (∀ (e : String) (dType : DbDataInstance),
        DiscordStore.Get (Except.error e) ≠ DiscordStore.Get (Except.ok dType)) :=
  ⟨fun _ _ => rfl, fun _ => rfl,
   fun _ _ h => Option.noConfusion h⟩

/-- Claim C8: `Insert`, `Update` and `Delete` delegate to the entity's own
insert/update/delete action, and any error raised by that action propagates to
the caller unchanged — asymmetrically with `Get`, which swallows errors. -/
theorem writes_delegate_and_propagate :
    (∀ r : Except String Unit, DiscordStore.Insert r = r) ∧
    (∀ r : Except String Unit, DiscordStore.Update r = r) ∧
    (∀ r : Except String Unit, DiscordStore.Delete r = r) ∧
    (∀ e : String, DiscordStore.Insert (Except.error e) = Except.error e) ∧
    (∀ e : String, DiscordStore.Update (Except.error e) = Except.error e) ∧
    (∀ e : String, DiscordStore.Delete (Except.error e) = Except.error e) ∧
    (∀ e : String, DiscordStore.Get (T := DbDataInstance) (Except.error e) = none) :=
  ⟨fun _ => rfl, fun _ => rfl, fun _ => rfl, fun _ => rfl, fun _ => rfl,
   fun _ => rfl, fun _ => rfl⟩

/-- Claim C9: during `init`, the step for version 8 (`SCHEMA_ROOM_STORE_REQUIRED`)
is constructed with the caller-supplied room-directory collaborator, the step
for version 9 (`SCHEMA_USER_STORE_REQUIRED`) with the caller-supplied
user-directory collaborator, and every other step's constructor receives no
collaborator argument. -/
theorem init_collaborator_args {R U : Type}
    (runOk rollBackOk : Nat → Bool) (o : Nat) (r : R) (u : U) (v0 w : Nat)
    (a : CollabArg R U)
    (h : InitEvent.construct w a ∈ (DiscordStore.init runOk rollBackOk o r u v0).1) :
    a = (if w = SCHEMA_ROOM_STORE_REQUIRED then CollabArg.room r
         else if w = SCHEMA_USER_STORE_REQUIRED then CollabArg.user u
         else CollabArg.noArg) :=
  initLoop_construct_arg runOk rollBackOk r u
    (targetSchema o - v0) v0 (targetSchema o) w a h

/-- Witness for C9: in the all-success run from version 5 to target 10 with
room collaborator 7 and user collaborator 9, step 8 was constructed with
argument `room 7`, which matches the claim's case split at `w = 8`. -/
theorem init_collaborator_args_witness :
    CollabArg.room 7 = (if 8 = SCHEMA_ROOM_STORE_REQUIRED then CollabArg.room (7 : Nat)
        else if 8 = SCHEMA_USER_STORE_REQUIRED then CollabArg.user (9 : Nat)
        else CollabArg.noArg) :=
  init_collaborator_args (fun _ => true) (fun _ => true) 0 7 9 5 8
    (CollabArg.room 7) (by decide)

/-- Claim C10: for every discordId whose token query matches no row,
`getToken` returns the empty string (not null, not an error), which is the
same result as for an association whose stored token is empty — callers
cannot tell the two apart. -/
theorem getToken_empty_when_absent
    (dbGet : String → Except String (Option TokenRow)) (discordId : String)
    (h : dbGet discordId = Except.ok none) :
    DiscordStore.getToken (dbGet discordId) = Except.ok "" ∧
    DiscordStore.getToken (dbGet discordId)
      = DiscordStore.getToken (Except.ok (some ⟨""⟩)) := by
  rw [h]
  exact ⟨rfl, rfl⟩

/-- Witness for C10: a database with no token rows answers `ok none` for
discordId "12345", and `getToken` returns the empty string. -/
theorem getToken_empty_when_absent_witness :
    DiscordStore.getToken ((fun _ => Except.ok none) "12345") = Except.ok "" ∧
    DiscordStore.getToken ((fun _ => Except.ok none) "12345")
      = DiscordStore.getToken (Except.ok (some ⟨""⟩)) :=
  getToken_empty_when_absent (fun _ => Except.ok none) "12345" rfl

end MatrixAppserviceDiscord
